import Mathlib

/-!
Shallow embedding of the climate-metric CO2eq converters and the response
loader of `notebooks/co2eq_analysis.ipynb` (Megill, Deck, Grewe 2024).

Embedding conventions:

* numpy float arrays are modelled with exact rational arithmetic (`ℚ`); the
  verified statements are the real-number (exact) readings of the formulas.
* a `[7 × T]` profile array is a total function `ℕ → ℕ → ℚ` taking the row
  index and the column (year) index; the genuine column count of a converter
  output is recorded in the `cols` field of `CO2eqResult`.  Row order is that
  of the notebook: 0 = Total, 1 = CO2, 2 = H2O, 3 = O3, 4 = CH4,
  5 = Contrails, 6 = PMO.
* the `years` argument of every converter is used by the source only through
  `len(years)`; the embedding therefore takes the length `T` directly.  In
  `gwps_co2eq`/`egwps_co2eq` the source writes `len(forcing_profiles[0, :])`
  for the year indices and `len(years)` for the column ranges; for the
  `[7 × T]` arrays of the data model these coincide, and the embedding uses
  the single parameter `T` for both.
* division by zero follows Lean's `x / 0 = 0` convention; statements that
  depend on a quotient being well behaved carry explicit nonzero hypotheses.
* the scalar `g = (1 - exp (-s / (1 - s))) / s` computed inside the GWP*
  converters is transcendental (`np.exp`), hence not a rational; every
  property proved below is invariant in its value, so it enters the embedding
  as an explicit parameter `g` of the two GWP* converters.
* the AGWP_CO2 lookup file read by `np.loadtxt` in the GWP* converters is
  passed as the list of its values (`agwph : List ℚ`).
-/

namespace CO2eq

/-- A response table: row index (species) and column index (year) to value.
Models the numpy arrays of shape `(7, T)`. -/
abbrev Profiles := ℕ → ℕ → ℚ

/-- Result of one converter: the column count of the returned CO2eq array,
its entries (row, output column), and the returned year-index sequence. -/
structure CO2eqResult where
  cols : ℕ
  entry : ℕ → ℕ → ℚ
  yearIdx : List ℕ

/-! ### RFI converter (`rf_co2eq`) -/

/-- `rf_co2eq`: `rfr_lst = rf_lst[:, H:-1] / rf_lst[1, H:-1]` followed by
`rf_CO2_eq = rfr_lst * CO2_emissions[:len(years)-H-1]`; output column `j`
corresponds to absolute year index `H + j`, while the emission factor is
`CO2_emissions[j]`.  `rf_years_idx = range(len(years) - H - 1)`. -/
def rf_co2eq (H T : ℕ) (forcing_profiles temperature_profiles : Profiles)
    (CO2_emissions : ℕ → ℚ) : CO2eqResult where
  cols := T - 1 - H
  entry := fun i j =>
    forcing_profiles i (H + j) / forcing_profiles 1 (H + j) * CO2_emissions j
  yearIdx := List.range (T - H - 1)

/-! ### GWP converter (`gwp_co2eq`) -/

/-- `agwp_lst[j, i] = np.sum(forcing_profiles[j, i:i+H])`: the forward
`H`-year sum of forcing starting at column `i`. -/
def agwp_lst (H : ℕ) (forcing_profiles : Profiles) : Profiles :=
  fun j i => ∑ k in Finset.range H, forcing_profiles j (i + k)

/-- `gwp_lst = agwp_lst / agwp_lst[1, :]`: per-species multiplier relative to
the CO2 row. -/
def gwp_lst (H : ℕ) (forcing_profiles : Profiles) : Profiles :=
  fun j i => agwp_lst H forcing_profiles j i / agwp_lst H forcing_profiles 1 i

/-- `gwp_co2eq`: multiplier times `CO2_emissions[range(len(years) - H)]`. -/
def gwp_co2eq (H T : ℕ) (forcing_profiles temperature_profiles : Profiles)
    (CO2_emissions : ℕ → ℚ) : CO2eqResult where
  cols := T - H
  entry := fun j i => gwp_lst H forcing_profiles j i * CO2_emissions i
  yearIdx := List.range (T - H)

/-! ### EGWP converter (`egwp_co2eq`) -/

/-- The efficacy constants of Ponater et al. (2006), in species order
CO2, H2O, O3, CH4, Contrails, PMO (applied to rows 1–6). -/
def efficacies : List ℚ := [1, 1.14, 1.37, 1.18, 0.59, 1]

/-- `aegwp_lst[1:, :] = aegwp_lst[1:, :] * efficacies.reshape((6, 1))`:
rows 1–6 of the forward-sum table scaled by the efficacy of the species. -/
def aegwp_scaled (H : ℕ) (forcing_profiles : Profiles) : Profiles :=
  fun j i =>
    if 1 ≤ j ∧ j ≤ 6 then
      agwp_lst H forcing_profiles j i * efficacies.getD (j - 1) 0
    else agwp_lst H forcing_profiles j i

/-- `aegwp_lst[0, :] = np.sum(aegwp_lst[1:, :], axis=0)`: the Total row is
recomputed as the sum of the scaled rows 1–6. -/
def aegwp_tot (H : ℕ) (forcing_profiles : Profiles) : Profiles :=
  fun j i =>
    if j = 0 then ∑ r in Finset.Icc 1 6, aegwp_scaled H forcing_profiles r i
    else aegwp_scaled H forcing_profiles j i

/-- `egwp_co2eq`: scaled table divided by its CO2 row, times the emissions. -/
def egwp_co2eq (H T : ℕ) (forcing_profiles temperature_profiles : Profiles)
    (CO2_emissions : ℕ → ℚ) : CO2eqResult where
  cols := T - H
  entry := fun j i =>
    aegwp_tot H forcing_profiles j i / aegwp_tot H forcing_profiles 1 i *
      CO2_emissions i
  yearIdx := List.range (T - H)

/-! ### GTP converter (`gtp_co2eq`) -/

/-- `gtp_co2eq`: `gtp_lst = agtp_lst[:, H:] / agtp_lst[1, H:]` times
`CO2_emissions[:len(years)-H]`; output column `i` uses the temperature at
absolute year `H + i` and the emission at year `i`. -/
def gtp_co2eq (H T : ℕ) (forcing_profiles temperature_profiles : Profiles)
    (CO2_emissions : ℕ → ℚ) : CO2eqResult where
  cols := T - H
  entry := fun j i =>
    temperature_profiles j (H + i) / temperature_profiles 1 (H + i) *
      CO2_emissions i
  yearIdx := List.range (T - H)

/-! ### ATR converter (`atr_co2eq`) -/

/-- `atr_lst[j, i] = np.sum(temperature_profiles[j, i:i+H]) / H`: forward
`H`-year mean of the temperature response. -/
def atr_lst (H : ℕ) (temperature_profiles : Profiles) : Profiles :=
  fun j i => (∑ k in Finset.range H, temperature_profiles j (i + k)) / H

/-- `atrp_lst = atr_lst / atr_lst[1, :]`. -/
def atrp_lst (H : ℕ) (temperature_profiles : Profiles) : Profiles :=
  fun j i =>
    atr_lst H temperature_profiles j i / atr_lst H temperature_profiles 1 i

/-- `atr_co2eq`: multiplier times `CO2_emissions[range(len(years) - H)]`. -/
def atr_co2eq (H T : ℕ) (forcing_profiles temperature_profiles : Profiles)
    (CO2_emissions : ℕ → ℚ) : CO2eqResult where
  cols := T - H
  entry := fun j i => atrp_lst H temperature_profiles j i * CO2_emissions i
  yearIdx := List.range (T - H)

/-! ### GWP* converter (`gwps_co2eq`) -/

/-- The fixed constant `s = 0.25` of the GWP* converters. -/
def sStar : ℚ := 0.25

/-- `agwp_co2 = agwph_co2[H - 1] * 1e9`: the looked-up AGWP of CO2 at
horizon `H`, scaled for unit consistency. -/
def agwp_co2 (H : ℕ) (agwph : List ℚ) : ℚ := agwph.getD (H - 1) 0 * 1e9

/-- `dFdt`: `(forcing[:, dt:] - forcing[:, :-dt]) / dt / 1000` with
`dt = 20`; column `c` corresponds to absolute year index `20 + c`. -/
def dFdt (forcing_profiles : Profiles) : Profiles :=
  fun j c => (forcing_profiles j (20 + c) - forcing_profiles j c) / 20 / 1000

/-- `F_av`: `sum(forcing[j, i-dt+1 : i+1]) / dt / 1000` for absolute index
`i = 20 + c`, i.e. the mean of the 20 values at years `c+1, …, c+20`. -/
def F_av (forcing_profiles : Profiles) : Profiles :=
  fun j c => (∑ k in Finset.range 20, forcing_profiles j (c + 1 + k)) / 20 / 1000

/-- The pre-override GWP* table:
`g * ((1 - s) * dFdt * H / agwp_co2 + s * F_av / agwp_co2)`. -/
def gwps_raw (g : ℚ) (H : ℕ) (agwph : List ℚ) (forcing_profiles : Profiles) :
    Profiles :=
  fun j c =>
    g * ((1 - sStar) * dFdt forcing_profiles j c * H / agwp_co2 H agwph +
      sStar * F_av forcing_profiles j c / agwp_co2 H agwph)

/-- `gwps_co2eq[1, :] = CO2_emissions[yr_idx1]`: the CO2 row is overwritten
with the raw emissions at the returned year indices `20 + c`. -/
def gwps_override (g : ℚ) (H : ℕ) (agwph : List ℚ)
    (forcing_profiles : Profiles) (CO2_emissions : ℕ → ℚ) : Profiles :=
  fun j c =>
    if j = 1 then CO2_emissions (20 + c)
    else gwps_raw g H agwph forcing_profiles j c

/-- `gwps_co2eq`: after the CO2-row override, the Total row is recomputed as
the sum of rows 1–6; `yr_idx1 = np.arange(dt, T)` with `dt = 20`. -/
def gwps_co2eq (g : ℚ) (H T : ℕ)
    (forcing_profiles temperature_profiles : Profiles)
    (CO2_emissions : ℕ → ℚ) (agwph : List ℚ) : CO2eqResult where
  cols := T - 20
  entry := fun j c =>
    if j = 0 then
      ∑ r in Finset.Icc 1 6,
        gwps_override g H agwph forcing_profiles CO2_emissions r c
    else gwps_override g H agwph forcing_profiles CO2_emissions j c
  yearIdx := List.range' 20 (T - 20)

/-! ### EGWP* converter (`egwps_co2eq`) -/

/-- `gwps_co2eq[1:, :] = gwps_co2eq[1:, :] * efficacies.reshape((6, 1))` in
`egwps_co2eq`: rows 1–6 of the overridden table scaled by the efficacies. -/
def egwps_scaled (g : ℚ) (H : ℕ) (agwph : List ℚ)
    (forcing_profiles : Profiles) (CO2_emissions : ℕ → ℚ) : Profiles :=
  fun j c =>
    if 1 ≤ j ∧ j ≤ 6 then
      gwps_override g H agwph forcing_profiles CO2_emissions j c *
        efficacies.getD (j - 1) 0
    else gwps_override g H agwph forcing_profiles CO2_emissions j c

/-- `egwps_co2eq`: override, then efficacy scaling, then the Total row as the
sum of rows 1–6. -/
def egwps_co2eq (g : ℚ) (H T : ℕ)
    (forcing_profiles temperature_profiles : Profiles)
    (CO2_emissions : ℕ → ℚ) (agwph : List ℚ) : CO2eqResult where
  cols := T - 20
  entry := fun j c =>
    if j = 0 then
      ∑ r in Finset.Icc 1 6,
        egwps_scaled g H agwph forcing_profiles CO2_emissions r c
    else egwps_scaled g H agwph forcing_profiles CO2_emissions j c
  yearIdx := List.range' 20 (T - 20)

/-! ### Response loader (`load_rf_dt`)

The loader reads, per species `i` in `[CO2, H2O, O3, CH4, Cont, PMO]`, the
value column of one RF file and one dT file and assigns it to row `i + 1` of
a `(7, T)` zero array, where `T` is the number of rows of the CO2 RF file
(whose year column gives `years`).  The numpy semantics modelled here:

* `np.loadtxt(..., usecols=k)` squeezes size-one axes, so a file with exactly
  one data row yields a 0-dimensional scalar; `len(years)` on such a scalar
  raises `TypeError`, which the embedding models as failure when `T = 1`.
* `arr[i + 1, :] = lst` succeeds elementwise when `len(lst) = T`, broadcasts
  silently when `lst` is the 0-dimensional scalar of a one-row file, and
  raises `ValueError` for any other length mismatch.

A file is passed as the list of its value-column entries. -/

/-- Whether the numpy row assignment `arr[i+1, :] = lst` succeeds for a file
with the given value column: either the lengths agree, or the file has
exactly one data row (0-d scalar, broadcast). -/
def assignable (T : ℕ) (file : List ℚ) : Bool :=
  file.length = T || file.length = 1

/-- The row produced by the numpy assignment: elementwise when the lengths
agree, otherwise the broadcast single value. -/
def rowOf (T : ℕ) (file : List ℚ) : ℕ → ℚ :=
  if file.length = T then fun t => file.getD t 0 else fun _ => file.getD 0 0

/-- The loaded response tables of one scenario together with the length of
the year axis. -/
structure ResponseSeries where
  rf_arr : ℕ → ℕ → ℚ
  dt_arr : ℕ → ℕ → ℚ
  numYears : ℕ

/-- Rows 1–6 populated from the six per-species files; all other rows stay
at the `np.zeros` initial value. -/
def speciesRows (T : ℕ) (files : ℕ → List ℚ) : ℕ → ℕ → ℚ :=
  fun r t => if 1 ≤ r ∧ r ≤ 6 then rowOf T (files (r - 1)) t else 0

/-- `arr[0, :] = np.sum(arr[:, :], axis=0)`: row 0 overwritten with the
column-wise sum over all 7 rows (row 0 being zero beforehand). -/
def totaled (pre : ℕ → ℕ → ℚ) : ℕ → ℕ → ℚ :=
  fun r t => if r = 0 then ∑ k in Finset.range 7, pre k t else pre r t

/-- The `ResponseSeries` produced on the success path of `load_rf_dt`. -/
def buildResponse (rfFiles dtFiles : ℕ → List ℚ) : ResponseSeries where
  rf_arr := totaled (speciesRows (rfFiles 0).length rfFiles)
  dt_arr := totaled (speciesRows (rfFiles 0).length dtFiles)
  numYears := (rfFiles 0).length

/-- `load_rf_dt`: `rfFiles i` (resp. `dtFiles i`) is the value column of the
RF (resp. dT) file of species `i` in order CO2, H2O, O3, CH4, Cont, PMO;
`rfFiles 0` is the CO2 RF file, whose row count sets `T = len(years)`.
Returns `none` when the numpy code raises before returning. -/
def load_rf_dt (rfFiles dtFiles : ℕ → List ℚ) : Option ResponseSeries :=
  let T := (rfFiles 0).length
  if T = 1 then none
  else if (List.range 6).all
      (fun i => assignable T (rfFiles i) && assignable T (dtFiles i)) then
    some (buildResponse rfFiles dtFiles)
  else none

/-! ## Claim theorems -/

/-- C10: each converter's output is independent of the response table it
does not use: `rf_co2eq`, `gwp_co2eq` and `egwp_co2eq` ignore the
temperature profiles, and `gtp_co2eq` and `atr_co2eq` ignore the forcing
profiles. -/
theorem converters_ignore_unused_table (H T : ℕ) (f f₁ f₂ tp tp₁ tp₂ : Profiles)
    (em : ℕ → ℚ) :
    rf_co2eq H T f tp₁ em = rf_co2eq H T f tp₂ em ∧
    gwp_co2eq H T f tp₁ em = gwp_co2eq H T f tp₂ em ∧
    egwp_co2eq H T f tp₁ em = egwp_co2eq H T f tp₂ em ∧
    gtp_co2eq H T f₁ tp em = gtp_co2eq H T f₂ tp em ∧
    atr_co2eq H T f₁ tp em = atr_co2eq H T f₂ tp em :=
  ⟨rfl, rfl, rfl, rfl, rfl⟩

/-- C8: for `0 < H < T - 1`, the RFI converter returns a CO2eq array with
exactly `T - H - 1` columns and a year-index sequence of exactly
`T - H - 1` indices. -/
theorem rf_co2eq_output_length (H T : ℕ) (f tp : Profiles) (em : ℕ → ℚ)
    (hH : 0 < H) (hHT : H < T - 1) :
    (rf_co2eq H T f tp em).cols = T - H - 1 ∧
    (rf_co2eq H T f tp em).yearIdx.length = T - H - 1 := by
  refine ⟨?_, ?_⟩
  · show T - 1 - H = T - H - 1
    omega
  · show (List.range (T - H - 1)).length = T - H - 1
    exact List.length_range _

/-- C8 witness, at the spec's example `T = 200`, `H = 100`: output length
`99`. -/
theorem rf_co2eq_output_length_witness :
    (rf_co2eq 100 200 (fun _ _ => 1) (fun _ _ => 1) (fun _ => 1)).cols =
      200 - 100 - 1 ∧
    (rf_co2eq 100 200 (fun _ _ => 1) (fun _ _ => 1)
        (fun _ => 1)).yearIdx.length = 200 - 100 - 1 :=
  rf_co2eq_output_length 100 200 (fun _ _ => 1) (fun _ _ => 1) (fun _ => 1)
    (by norm_num) (by norm_num)

/-- C2 counterexample: with constant forcing `1` (multiplier `1` at every
year) and emissions `em t = t`, at `H = 1`, `T = 4`, `t = 1` the returned
value for multiplier year `t` is `em 0 = 0`, not
`RF_i[t] / RF_CO2[t] * em 1 = 1` as the claim states. -/
theorem rf_co2eq_claim_C2_false :
    ¬ ((rf_co2eq 1 4 (fun _ _ => 1) (fun _ _ => 1) (fun t => t)).entry 2 (1 - 1) =
      (fun (_ t : ℕ) => (1 : ℚ)) 2 1 / (fun (_ t : ℕ) => (1 : ℚ)) 1 1 *
        (fun t : ℕ => (t : ℚ)) 1) := by
  show ¬ ((1 : ℚ) / 1 * ((0 : ℕ) : ℚ) = 1 / 1 * ((1 : ℕ) : ℚ))
  norm_num

/-- C2 amended: for `t ∈ [H, T - 2)`, the returned CO2eq value at
multiplier year `t` (output column `t - H`) is the multiplier at year `t`
times the CO2 emission of year `t - H` — the emission index is offset by
the horizon, it is not the emission of the same year `t`. -/
theorem rf_co2eq_entry_eq (H T : ℕ) (f tp : Profiles) (em : ℕ → ℚ)
    (i t : ℕ) (h1 : H ≤ t) (h2 : t + 2 ≤ T) :
    (rf_co2eq H T f tp em).entry i (t - H) = f i t / f 1 t * em (t - H) := by
  show f i (H + (t - H)) / f 1 (H + (t - H)) * em (t - H) = _
  rw [Nat.add_sub_cancel' h1]

/-- C2 amended, witness at `H = 1`, `T = 4`, `t = 1`. -/
theorem rf_co2eq_entry_eq_witness :
    (rf_co2eq 1 4 (fun _ _ => 1) (fun _ _ => 1) (fun t => t)).entry 2 (1 - 1) =
      (fun (_ t : ℕ) => (1 : ℚ)) 2 1 / (fun (_ t : ℕ) => (1 : ℚ)) 1 1 *
        (fun t : ℕ => (t : ℚ)) (1 - 1) :=
  rf_co2eq_entry_eq 1 4 (fun _ _ => 1) (fun _ _ => 1) (fun t => t) 2 1
    (by norm_num) (by norm_num)

/-- C1: for every species row `i`, horizon `H ∈ [1, 100]` and index
`t ∈ [20, T)`, the GWP* converter computes, before the CO2-row override,
`GWPstar_i[t] = g * ((1-s) * (RF_i[t] - RF_i[t-20]) / 20 / 1000 * H /
AGWP_CO2(H) + s * ((Σ_{k=t-19}^{t} RF_i[k]) / 20 / 1000) / AGWP_CO2(H))`
with `AGWP_CO2(H)` the lookup entry `H - 1` times `1e9`, and it returns
exactly the year indices `20, 21, …, T - 1`. -/
theorem gwps_co2eq_formula (g : ℚ) (H T : ℕ) (agwph : List ℚ)
    (f tp : Profiles) (em : ℕ → ℚ) (hH1 : 1 ≤ H) (hH2 : H ≤ 100)
    (i t : ℕ) (ht1 : 20 ≤ t) (ht2 : t < T) :
    gwps_raw g H agwph f i (t - 20) =
      g * ((1 - sStar) * ((f i t - f i (t - 20)) / 20 / 1000) * H /
          (agwph.getD (H - 1) 0 * 1e9) +
        sStar * ((∑ k in Finset.Icc (t - 19) t, f i k) / 20 / 1000) /
          (agwph.getD (H - 1) 0 * 1e9)) ∧
    (gwps_co2eq g H T f tp em agwph).yearIdx = List.range' 20 (T - 20) := by
  constructor
  · have hd : dFdt f i (t - 20) = (f i t - f i (t - 20)) / 20 / 1000 := by
      unfold dFdt
      rw [Nat.add_sub_cancel' ht1]
    have hav : F_av f i (t - 20) =
        (∑ k in Finset.Icc (t - 19) t, f i k) / 20 / 1000 := by
      unfold F_av
      congr 2
      rw [← Nat.Ico_succ_right, Finset.sum_Ico_eq_sum_range]
      have h20 : t + 1 - (t - 19) = 20 := by omega
      rw [h20]
      refine Finset.sum_congr rfl fun k _ => ?_
      congr 1
      omega
    unfold gwps_raw agwp_co2
    rw [hd, hav]
  · rfl

/-- C1 witness at `g = 2`, `H = 1`, `T = 21`, `agwph = [3]`, `i = 4`,
`t = 20`. -/
theorem gwps_co2eq_formula_witness :
    gwps_raw 2 1 [3] (fun j k => (j : ℚ) + k) 4 (20 - 20) =
      2 * ((1 - sStar) *
          (((fun j k : ℕ => (j : ℚ) + k) 4 20 -
            (fun j k : ℕ => (j : ℚ) + k) 4 (20 - 20)) / 20 / 1000) * (1 : ℕ) /
          (List.getD [(3 : ℚ)] (1 - 1) 0 * 1e9) +
        sStar *
          ((∑ k in Finset.Icc (20 - 19) 20,
            (fun j k : ℕ => (j : ℚ) + k) 4 k) / 20 / 1000) /
          (List.getD [(3 : ℚ)] (1 - 1) 0 * 1e9)) ∧
    (gwps_co2eq 2 1 21 (fun j k => (j : ℚ) + k) (fun _ _ => 1) (fun _ => 1)
        [3]).yearIdx = List.range' 20 (21 - 20) :=
  gwps_co2eq_formula 2 1 21 [3] (fun j k => (j : ℚ) + k) (fun _ _ => 1)
    (fun _ => 1) (by norm_num) (by norm_num) 4 20 (by norm_num) (by norm_num)

/-- Helper: the Total row of the forward-sum table is the row-wise sum of
the species rows, given the Total invariant on the input profiles. -/
theorem agwp_lst_total (H : ℕ) (f : Profiles)
    (hf : ∀ t, f 0 t = ∑ i in Finset.Icc 1 6, f i t) (i : ℕ) :
    agwp_lst H f 0 i = ∑ r in Finset.Icc 1 6, agwp_lst H f r i := by
  unfold agwp_lst
  rw [Finset.sum_comm]
  exact Finset.sum_congr rfl fun k _ => hf (i + k)

/-- C3: for each of `rf_co2eq`, `gwp_co2eq`, `egwp_co2eq`, `gtp_co2eq` and
`atr_co2eq`, if the input RF and dT arrays satisfy
`total[t] = Σ_{i=1..6} species_i[t]` at every time step, then the returned
array satisfies `CO2eq_total = Σ_{i=1..6} CO2eq_i` at every valid output
index (`t₁ < T - H - 1` for RFI, `t₂ < T - H` for the others). -/
theorem converters_total_is_sum (H T : ℕ) (f tp : Profiles) (em : ℕ → ℚ)
    (hf : ∀ t, f 0 t = ∑ i in Finset.Icc 1 6, f i t)
    (htp : ∀ t, tp 0 t = ∑ i in Finset.Icc 1 6, tp i t)
    (t₁ t₂ : ℕ) (h₁ : t₁ < T - H - 1) (h₂ : t₂ < T - H) :
    (rf_co2eq H T f tp em).entry 0 t₁ =
      ∑ i in Finset.Icc 1 6, (rf_co2eq H T f tp em).entry i t₁ ∧
    (gwp_co2eq H T f tp em).entry 0 t₂ =
      ∑ i in Finset.Icc 1 6, (gwp_co2eq H T f tp em).entry i t₂ ∧
    (egwp_co2eq H T f tp em).entry 0 t₂ =
      ∑ i in Finset.Icc 1 6, (egwp_co2eq H T f tp em).entry i t₂ ∧
    (gtp_co2eq H T f tp em).entry 0 t₂ =
      ∑ i in Finset.Icc 1 6, (gtp_co2eq H T f tp em).entry i t₂ ∧
    (atr_co2eq H T f tp em).entry 0 t₂ =
      ∑ i in Finset.Icc 1 6, (atr_co2eq H T f tp em).entry i t₂ := by
  refine ⟨?_, ?_, ?_, ?_, ?_⟩
  · show f 0 (H + t₁) / f 1 (H + t₁) * em t₁ =
      ∑ i in Finset.Icc 1 6, f i (H + t₁) / f 1 (H + t₁) * em t₁
    rw [hf (H + t₁), Finset.sum_div, Finset.sum_mul]
  · show gwp_lst H f 0 t₂ * em t₂ =
      ∑ i in Finset.Icc 1 6, gwp_lst H f i t₂ * em t₂
    unfold gwp_lst
    rw [agwp_lst_total H f hf t₂, Finset.sum_div, Finset.sum_mul]
  · show aegwp_tot H f 0 t₂ / aegwp_tot H f 1 t₂ * em t₂ =
      ∑ i in Finset.Icc 1 6,
        aegwp_tot H f i t₂ / aegwp_tot H f 1 t₂ * em t₂
    have h0 : aegwp_tot H f 0 t₂ =
        ∑ r in Finset.Icc 1 6, aegwp_scaled H f r t₂ := by
      unfold aegwp_tot
      rw [if_pos rfl]
    have hr : ∀ r ∈ Finset.Icc 1 6,
        aegwp_tot H f r t₂ / aegwp_tot H f 1 t₂ * em t₂ =
        aegwp_scaled H f r t₂ / aegwp_tot H f 1 t₂ * em t₂ := by
      intro r hr
      have hne : r ≠ 0 := by
        have := Finset.mem_Icc.mp hr
        omega
      unfold aegwp_tot
      rw [if_neg hne]
    rw [h0, Finset.sum_congr rfl hr, Finset.sum_div, Finset.sum_mul]
  · show tp 0 (H + t₂) / tp 1 (H + t₂) * em t₂ =
      ∑ i in Finset.Icc 1 6, tp i (H + t₂) / tp 1 (H + t₂) * em t₂
    rw [htp (H + t₂), Finset.sum_div, Finset.sum_mul]
  · show atrp_lst H tp 0 t₂ * em t₂ =
      ∑ i in Finset.Icc 1 6, atrp_lst H tp i t₂ * em t₂
    unfold atrp_lst atr_lst
    rw [show (∑ k in Finset.range H, tp 0 (t₂ + k)) =
        ∑ r in Finset.Icc 1 6, ∑ k in Finset.range H, tp r (t₂ + k) by
      rw [Finset.sum_comm]
      exact Finset.sum_congr rfl fun k _ => htp (t₂ + k)]
    rw [Finset.sum_div, Finset.sum_div, Finset.sum_mul]

/-- C3 witness at `H = 1`, `T = 3`, with profiles whose Total row is the sum
of rows 1–6. -/
theorem converters_total_is_sum_witness :
    (rf_co2eq 1 3 (fun r _ => if 1 ≤ r ∧ r ≤ 6 then 1 else if r = 0 then 6 else 0)
        (fun r _ => if 1 ≤ r ∧ r ≤ 6 then 1 else if r = 0 then 6 else 0)
        (fun t => t)).entry 0 0 =
      ∑ i in Finset.Icc 1 6,
        (rf_co2eq 1 3 (fun r _ => if 1 ≤ r ∧ r ≤ 6 then 1 else if r = 0 then 6 else 0)
          (fun r _ => if 1 ≤ r ∧ r ≤ 6 then 1 else if r = 0 then 6 else 0)
          (fun t => t)).entry i 0 ∧
    (gwp_co2eq 1 3 (fun r _ => if 1 ≤ r ∧ r ≤ 6 then 1 else if r = 0 then 6 else 0)
        (fun r _ => if 1 ≤ r ∧ r ≤ 6 then 1 else if r = 0 then 6 else 0)
        (fun t => t)).entry 0 1 =
      ∑ i in Finset.Icc 1 6,
        (gwp_co2eq 1 3 (fun r _ => if 1 ≤ r ∧ r ≤ 6 then 1 else if r = 0 then 6 else 0)
          (fun r _ => if 1 ≤ r ∧ r ≤ 6 then 1 else if r = 0 then 6 else 0)
          (fun t => t)).entry i 1 ∧
    (egwp_co2eq 1 3 (fun r _ => if 1 ≤ r ∧ r ≤ 6 then 1 else if r = 0 then 6 else 0)
        (fun r _ => if 1 ≤ r ∧ r ≤ 6 then 1 else if r = 0 then 6 else 0)
        (fun t => t)).entry 0 1 =
      ∑ i in Finset.Icc 1 6,
        (egwp_co2eq 1 3 (fun r _ => if 1 ≤ r ∧ r ≤ 6 then 1 else if r = 0 then 6 else 0)
          (fun r _ => if 1 ≤ r ∧ r ≤ 6 then 1 else if r = 0 then 6 else 0)
          (fun t => t)).entry i 1 ∧
    (gtp_co2eq 1 3 (fun r _ => if 1 ≤ r ∧ r ≤ 6 then 1 else if r = 0 then 6 else 0)
        (fun r _ => if 1 ≤ r ∧ r ≤ 6 then 1 else if r = 0 then 6 else 0)
        (fun t => t)).entry 0 1 =
      ∑ i in Finset.Icc 1 6,
        (gtp_co2eq 1 3 (fun r _ => if 1 ≤ r ∧ r ≤ 6 then 1 else if r = 0 then 6 else 0)
          (fun r _ => if 1 ≤ r ∧ r ≤ 6 then 1 else if r = 0 then 6 else 0)
          (fun t => t)).entry i 1 ∧
    (atr_co2eq 1 3 (fun r _ => if 1 ≤ r ∧ r ≤ 6 then 1 else if r = 0 then 6 else 0)
        (fun r _ => if 1 ≤ r ∧ r ≤ 6 then 1 else if r = 0 then 6 else 0)
        (fun t => t)).entry 0 1 =
      ∑ i in Finset.Icc 1 6,
        (atr_co2eq 1 3 (fun r _ => if 1 ≤ r ∧ r ≤ 6 then 1 else if r = 0 then 6 else 0)
          (fun r _ => if 1 ≤ r ∧ r ≤ 6 then 1 else if r = 0 then 6 else 0)
          (fun t => t)).entry i 1 :=
  converters_total_is_sum 1 3
    (fun r _ => if 1 ≤ r ∧ r ≤ 6 then 1 else if r = 0 then 6 else 0)
    (fun r _ => if 1 ≤ r ∧ r ≤ 6 then 1 else if r = 0 then 6 else 0)
    (fun t => t)
    (fun t => by
      rw [Finset.sum_congr rfl fun x hx => if_pos (Finset.mem_Icc.mp hx)]
      simp)
    (fun t => by
      rw [Finset.sum_congr rfl fun x hx => if_pos (Finset.mem_Icc.mp hx)]
      simp)
    0 1 (by norm_num) (by norm_num)

/-- C4: in both GWP* and EGWP*, row 1 of the returned array equals the raw
CO2 emission at the returned year index `20 + c`, and row 0 equals the sum
of rows 1–6 as they stand after the CO2-row override (and, for EGWP*, after
the efficacy scaling). -/
theorem gwps_egwps_override_rows (g : ℚ) (H T : ℕ) (agwph : List ℚ)
    (f tp : Profiles) (em : ℕ → ℚ) (c : ℕ) (hc : c < T - 20) :
    (gwps_co2eq g H T f tp em agwph).entry 1 c = em (20 + c) ∧
    (gwps_co2eq g H T f tp em agwph).entry 0 c =
      ∑ r in Finset.Icc 1 6, (gwps_co2eq g H T f tp em agwph).entry r c ∧
    (egwps_co2eq g H T f tp em agwph).entry 1 c = em (20 + c) ∧
    (egwps_co2eq g H T f tp em agwph).entry 0 c =
      ∑ r in Finset.Icc 1 6, (egwps_co2eq g H T f tp em agwph).entry r c := by
  refine ⟨rfl, ?_, ?_, ?_⟩
  · show (∑ r in Finset.Icc 1 6, gwps_override g H agwph f em r c) = _
    refine Finset.sum_congr rfl fun r hr => ?_
    have : r ≠ 0 := by
      have := Finset.mem_Icc.mp hr
      omega
    show gwps_override g H agwph f em r c =
      (gwps_co2eq g H T f tp em agwph).entry r c
    simp only [gwps_co2eq, if_neg this]
  · show egwps_scaled g H agwph f em 1 c = em (20 + c)
    unfold egwps_scaled
    rw [if_pos (by norm_num : (1:ℕ) ≤ 1 ∧ 1 ≤ 6)]
    show gwps_override g H agwph f em 1 c * efficacies.getD 0 0 = em (20 + c)
    unfold gwps_override efficacies
    rw [if_pos rfl]
    norm_num
  · show (∑ r in Finset.Icc 1 6, egwps_scaled g H agwph f em r c) = _
    refine Finset.sum_congr rfl fun r hr => ?_
    have : r ≠ 0 := by
      have := Finset.mem_Icc.mp hr
      omega
    show egwps_scaled g H agwph f em r c =
      (egwps_co2eq g H T f tp em agwph).entry r c
    simp only [egwps_co2eq, if_neg this]

/-- C4 witness at `g = 2`, `H = 1`, `T = 21`, `c = 0`. -/
theorem gwps_egwps_override_rows_witness :
    (gwps_co2eq 2 1 21 (fun _ _ => 1) (fun _ _ => 1) (fun t => t) [3]).entry 1 0 =
      (fun t : ℕ => (t : ℚ)) (20 + 0) ∧
    (gwps_co2eq 2 1 21 (fun _ _ => 1) (fun _ _ => 1) (fun t => t) [3]).entry 0 0 =
      ∑ r in Finset.Icc 1 6,
        (gwps_co2eq 2 1 21 (fun _ _ => 1) (fun _ _ => 1) (fun t => t) [3]).entry r 0 ∧
    (egwps_co2eq 2 1 21 (fun _ _ => 1) (fun _ _ => 1) (fun t => t) [3]).entry 1 0 =
      (fun t : ℕ => (t : ℚ)) (20 + 0) ∧
    (egwps_co2eq 2 1 21 (fun _ _ => 1) (fun _ _ => 1) (fun t => t) [3]).entry 0 0 =
      ∑ r in Finset.Icc 1 6,
        (egwps_co2eq 2 1 21 (fun _ _ => 1) (fun _ _ => 1) (fun t => t) [3]).entry r 0 :=
  gwps_egwps_override_rows 2 1 21 [3] (fun _ _ => 1) (fun _ _ => 1)
    (fun t => t) 0 (by norm_num)

/-- C6: with every species row 1–6 of the RF array constant `1` at every
time step, the efficacy-scaled aggregated forcing of the H2O row (row 2)
equals `1.14 × H` at every valid index, i.e. the efficacy vector aligns so
that H2O receives the factor `1.14`. -/
theorem egwp_h2o_scaled_agwp (H T : ℕ) (f : Profiles)
    (hf : ∀ r t, 1 ≤ r → r ≤ 6 → f r t = 1) (i : ℕ) (hi : i < T - H) :
    aegwp_scaled H f 2 i = 1.14 * H := by
  unfold aegwp_scaled
  rw [if_pos (by norm_num : (1:ℕ) ≤ 2 ∧ 2 ≤ 6)]
  unfold agwp_lst
  rw [Finset.sum_congr rfl fun k _ => hf 2 (i + k) (by norm_num) (by norm_num)]
  rw [Finset.sum_const, Finset.card_range]
  unfold efficacies
  norm_num
  ring

/-- C6 witness at `H = 2`, `T = 3`, `i = 0`, all-ones profiles. -/
theorem egwp_h2o_scaled_agwp_witness :
    aegwp_scaled 2 (fun _ _ => 1) 2 0 = 1.14 * (2 : ℕ) :=
  egwp_h2o_scaled_agwp 2 3 (fun _ _ => 1) (fun _ _ _ _ => rfl) 0 (by norm_num)

/-- C7: when the CO2 response quantity (H-year forward RF sum for GWP,
H-year forward dT mean for ATR) is nonzero at every valid index, the CO2
multiplier equals `1` at every valid index, so row 1 of the output equals
the CO2 emission of that year. -/
theorem gwp_atr_co2_multiplier_one (H T : ℕ) (f tp : Profiles) (em : ℕ → ℚ)
    (hg : ∀ i, i < T - H → agwp_lst H f 1 i ≠ 0)
    (ha : ∀ i, i < T - H → atr_lst H tp 1 i ≠ 0)
    (i : ℕ) (hi : i < T - H) :
    gwp_lst H f 1 i = 1 ∧ (gwp_co2eq H T f tp em).entry 1 i = em i ∧
    atrp_lst H tp 1 i = 1 ∧ (atr_co2eq H T f tp em).entry 1 i = em i := by
  have h1 : gwp_lst H f 1 i = 1 := by
    unfold gwp_lst
    exact div_self (hg i hi)
  have h2 : atrp_lst H tp 1 i = 1 := by
    unfold atrp_lst
    exact div_self (ha i hi)
  refine ⟨h1, ?_, h2, ?_⟩
  · show gwp_lst H f 1 i * em i = em i
    rw [h1, one_mul]
  · show atrp_lst H tp 1 i * em i = em i
    rw [h2, one_mul]

/-- C7 witness at `H = 1`, `T = 2`, `i = 0`, all-ones profiles. -/
theorem gwp_atr_co2_multiplier_one_witness :
    gwp_lst 1 (fun _ _ => 1) 1 0 = 1 ∧
    (gwp_co2eq 1 2 (fun _ _ => 1) (fun _ _ => 1) (fun t => t + 5)).entry 1 0 =
      (fun t : ℕ => (t : ℚ) + 5) 0 ∧
    atrp_lst 1 (fun _ _ => 1) 1 0 = 1 ∧
    (atr_co2eq 1 2 (fun _ _ => 1) (fun _ _ => 1) (fun t => t + 5)).entry 1 0 =
      (fun t : ℕ => (t : ℚ) + 5) 0 :=
  gwp_atr_co2_multiplier_one 1 2 (fun _ _ => 1) (fun _ _ => 1)
    (fun t => t + 5)
    (fun i _ => by simp [agwp_lst])
    (fun i _ => by simp [atr_lst])
    0 (by norm_num)

/-- Helper: when row 0 of the pre-total array is zero, the summed row 0 of
`totaled` equals the sum of rows 1–6, even though the source sums all 7
rows. -/
theorem totaled_row0 (pre : ℕ → ℕ → ℚ) (h0 : ∀ t, pre 0 t = 0) (t : ℕ) :
    totaled pre 0 t = ∑ i in Finset.Icc 1 6, totaled pre i t := by
  unfold totaled
  rw [if_pos rfl]
  have h7 : Finset.range 7 = insert 0 (Finset.Icc 1 6) := by decide
  rw [h7, Finset.sum_insert (by decide : (0 : ℕ) ∉ Finset.Icc 1 6), h0 t,
    zero_add]
  exact Finset.sum_congr rfl fun i hi =>
    (if_neg (by have := Finset.mem_Icc.mp hi; omega)).symm

/-- C5: every successfully loaded scenario satisfies
`total[t] = Σ_{i=1..6} species_i[t]` at every time step, for both the RF
and the dT array: row 0 equals the column-wise sum of rows 1–6, because
row 0 is zero before the all-row sum is taken. -/
theorem load_rf_dt_total_is_sum (rfFiles dtFiles : ℕ → List ℚ)
    (res : ResponseSeries) (h : load_rf_dt rfFiles dtFiles = some res)
    (t : ℕ) :
    res.rf_arr 0 t = ∑ i in Finset.Icc 1 6, res.rf_arr i t ∧
    res.dt_arr 0 t = ∑ i in Finset.Icc 1 6, res.dt_arr i t := by
  have hres : res = buildResponse rfFiles dtFiles := by
    simp only [load_rf_dt] at h
    split_ifs at h
    · exact (Option.some.inj h).symm
  subst hres
  exact ⟨totaled_row0 _ (fun t => by simp [speciesRows]) t,
    totaled_row0 _ (fun t => by simp [speciesRows]) t⟩

/-- C5 witness: two-year files, all species present. -/
theorem load_rf_dt_total_is_sum_witness :
    (buildResponse (fun _ => [1, 2]) (fun _ => [3, 4])).rf_arr 0 0 =
      ∑ i in Finset.Icc 1 6,
        (buildResponse (fun _ => [1, 2]) (fun _ => [3, 4])).rf_arr i 0 ∧
    (buildResponse (fun _ => [1, 2]) (fun _ => [3, 4])).dt_arr 0 0 =
      ∑ i in Finset.Icc 1 6,
        (buildResponse (fun _ => [1, 2]) (fun _ => [3, 4])).dt_arr i 0 :=
  load_rf_dt_total_is_sum (fun _ => [1, 2]) (fun _ => [3, 4]) _ rfl 0

/-- C9 counterexample: with a CO2 RF file of two years and an H2O RF file of
exactly one entry, the loader returns successfully (numpy squeezes the
one-row file to a 0-d scalar and broadcasts it across the row) although the
per-species year counts disagree — the claim that `load_rf_dt` always fails
on such a mismatch is false. -/
theorem load_rf_dt_claim_C9_false :
    (load_rf_dt (fun i => if i = 1 then [5] else [1, 2])
        (fun _ => [1, 2])).isSome = true ∧
    ((fun i : ℕ => if i = 1 then [(5 : ℚ)] else [1, 2]) 1).length ≠
      ((fun i : ℕ => if i = 1 then [(5 : ℚ)] else [1, 2]) 0).length :=
  ⟨rfl, by norm_num⟩

/-- C9 amended: the loader fails before returning whenever some per-species
RF or dT file has an entry count that differs from the CO2 RF file's year
count and is not exactly 1; a one-entry file is the single silent case,
broadcast by numpy's 0-d squeeze. -/
theorem load_rf_dt_mismatch_fails (rfFiles dtFiles : ℕ → List ℚ) (i : ℕ)
    (hi : i < 6)
    (hmis : ((rfFiles i).length ≠ (rfFiles 0).length ∧
        (rfFiles i).length ≠ 1) ∨
      ((dtFiles i).length ≠ (rfFiles 0).length ∧ (dtFiles i).length ≠ 1)) :
    load_rf_dt rfFiles dtFiles = none := by
  simp only [load_rf_dt]
  split_ifs with h1 h2
  · rfl
  · exfalso
    have hall := List.all_eq_true.mp h2 i (List.mem_range.mpr hi)
    rw [Bool.and_eq_true] at hall
    obtain ⟨ha, hb⟩ := hall
    unfold assignable at ha hb
    rw [Bool.or_eq_true, decide_eq_true_eq, decide_eq_true_eq] at ha hb
    rcases hmis with ⟨x1, x2⟩ | ⟨x1, x2⟩
    · rcases ha with hx | hx
      · exact x1 hx
      · exact x2 hx
    · rcases hb with hx | hx
      · exact x1 hx
      · exact x2 hx
  · rfl

/-- C9 amended, witness: a three-entry H2O RF file against a two-year CO2
RF file makes the loader fail. -/
theorem load_rf_dt_mismatch_fails_witness :
    load_rf_dt (fun i => if i = 1 then [1, 2, 3] else [1, 2])
      (fun _ => [1, 2]) = none :=
  load_rf_dt_mismatch_fails (fun i => if i = 1 then [1, 2, 3] else [1, 2])
    (fun _ => [1, 2]) 1 (by norm_num) (Or.inl ⟨by norm_num, by norm_num⟩)

end CO2eq
